import Mathlib

/-!
# LearnX Backend — Live Session Coordinator: shallow embedding

This file embeds the live-broadcast session coordinator of `src/server.js`
(the `sessions` Map, the `join-broadcast` Socket.IO handler, and the
`GET /api/live-sessions` endpoint) as executable Lean definitions, and
proves the specification claims about it.

Modelling conventions:
- JS `Map` objects are association lists `List (String × α)`; `Map.set`
  replaces the first occurrence in place (as JS `Map.set` keeps insertion
  order) or appends, `Map.get` returns the first occurrence, `Map.size`
  is the list length (keys are unique in every map the program builds).
- `new Date()` timestamps are the `now : Nat` parameter threaded into each
  handler invocation.
- Socket.IO emissions are collected into a list of
  `(Recipient × Payload)` pairs in program order: `socket.emit` targets
  `Recipient.socket`, `io.to(roomId).emit` targets `Recipient.room`, and
  `io.to(socketId).emit` targets `Recipient.socket`.
- Room membership (`socket.join` / `socket.leave`) is a list of
  `(roomId, socketId)` pairs.
-/

namespace LearnX

/-- A value of the `students` Map of a session:
`{ socketId, active, joinedAt }` (src/server.js lines 166-170). -/
structure StudentRec where
  socketId : String
  active : Bool
  joinedAt : Nat
  deriving Repr, DecidableEq

/-- The `instructor` record of a session:
`{ id, socketId, active }` (src/server.js line 157). -/
structure InstructorRec where
  id : String
  socketId : String
  active : Bool
  deriving Repr, DecidableEq

/-- One session of the `sessions` Map (src/server.js lines 134-144).
Messages are opaque payloads; this core only appends and reports them. -/
structure Session where
  instructor : Option InstructorRec
  students : List (String × StudentRec)
  messages : List String
  isLive : Bool
  startTime : Option Nat
  createdAt : Nat
  deriving Repr, DecidableEq

/-- JS `Map.prototype.get`: first entry with the key. -/
def mapGet {α : Type} (m : List (String × α)) (k : String) : Option α :=
  match m with
  | [] => none
  | (k', v') :: rest => if k' = k then some v' else mapGet rest k

/-- JS `Map.prototype.set`: replace the entry in place if the key is
present, otherwise append at the end (JS Maps keep insertion order). -/
def mapSet {α : Type} (m : List (String × α)) (k : String) (v : α) :
    List (String × α) :=
  match m with
  | [] => [(k, v)]
  | (k', v') :: rest => if k' = k then (k, v) :: rest else (k', v') :: mapSet rest k v

/-- The server-side state touched by the coordinator: the module-level
`sessions` Map (src/server.js line 119) and the Socket.IO room-membership
relation maintained by `socket.join` / `socket.leave`. -/
structure ServerState where
  sessions : List (String × Session)
  rooms : List (String × String)
  deriving Repr, DecidableEq

/-- Who an emission is addressed to. -/
inductive Recipient where
  | socket (sid : String)
  | room (roomId : String)
  deriving Repr, DecidableEq

/-- The outbound event payloads of the coordinator. -/
inductive Payload where
  | error (msg : String)
  | broadcastStarted (instructorId : String) (startTime : Option Nat)
  | studentJoined (roomId userId : String) (totalStudents : Nat)
  | sessionInfo (isLive : Bool) (startTime : Option Nat) (messages : List String)
      (totalStudents : Nat) (instructorActive : Bool)
  | participantsUpdated (count : Nat)
  deriving Repr, DecidableEq

/-- Model of `socket.join(roomId)`: membership is a set, joining twice is a no-op. -/
def joinRoom (rooms : List (String × String)) (roomId sid : String) :
    List (String × String) :=
  if (roomId, sid) ∈ rooms then rooms else rooms ++ [(roomId, sid)]

/-- Model of `socket.leave(roomId)`: drop the membership pair. -/
def leaveRoom (rooms : List (String × String)) (roomId sid : String) :
    List (String × String) :=
  rooms.filter (fun p => p ≠ (roomId, sid))

/-- The parameter validation of the `join-broadcast` handler
(src/server.js line 126): `!roomId || !userId ||
!["instructor","student"].includes(userType)` rejects; the only falsy
string is the empty string. -/
def validParams (roomId userId userType : String) : Bool :=
  roomId ≠ "" && userId ≠ "" && (userType = "instructor" || userType = "student")

/-- The session object built at src/server.js lines 135-142 when the room
is unknown. -/
def freshSession (now : Nat) : Session :=
  { instructor := none, students := [], messages := [], isLive := false,
    startTime := none, createdAt := now }

/-- Lines 132-144: `sessions.get(roomId)`, creating and registering a fresh
session when absent. Returns the session together with the updated map. -/
def getOrCreate (sessions : List (String × Session)) (roomId : String) (now : Nat) :
    Session × List (String × Session) :=
  match mapGet sessions roomId with
  | some s => (s, sessions)
  | none => (freshSession now, mapSet sessions roomId (freshSession now))

/-- The conflict test of src/server.js lines 147-151:
`session.instructor && session.instructor.active &&
session.instructor.socketId !== socket.id`. -/
def instructorConflict (session : Session) (sid : String) : Bool :=
  match session.instructor with
  | some ins => ins.active && ins.socketId ≠ sid
  | none => false

/-- Lines 157-159: record the instructor, set `isLive`, and
`session.startTime = session.startTime || new Date()` (an existing `Date`
is truthy, so an already-set value is kept). -/
def admitInstructor (session : Session) (sid userId : String) (now : Nat) : Session :=
  { session with
      instructor := some { id := userId, socketId := sid, active := true },
      isLive := true,
      startTime := some (session.startTime.getD now) }

/-- Lines 166-170: insert or replace the student entry for `userId`. -/
def admitStudent (session : Session) (sid userId : String) (now : Nat) : Session :=
  { session with
      students := mapSet session.students userId
        { socketId := sid, active := true, joinedAt := now } }

/-- The expression `session.instructor?.active || false` (src/server.js lines 185 and 190). -/
def instructorActiveFlag (session : Session) : Bool :=
  match session.instructor with
  | some ins => ins.active
  | none => false

/-- The count `session.students.size + (session.instructor?.active ? 1 : 0)`
(src/server.js line 190). -/
def participantCount (session : Session) : Nat :=
  session.students.length + (if instructorActiveFlag session then 1 else 0)

/-- The `join-broadcast` handler, src/server.js lines 125-192: validate,
`socket.join`, get-or-create the session, then the instructor branch
(conflict rejection with `socket.leave`, or admission with
`broadcast-started`) or the student branch (`student-joined` to an active
instructor, `session-info` to the joiner), and finally
`participants-updated` to the room after every successful admission. -/
def joinBroadcast (st : ServerState) (sid roomId userId userType : String)
    (now : Nat) : ServerState × List (Recipient × Payload) :=
  if validParams roomId userId userType then
    let rooms1 := joinRoom st.rooms roomId sid
    let gc := getOrCreate st.sessions roomId now
    if userType = "instructor" then
      if instructorConflict gc.1 sid then
        ({ sessions := gc.2, rooms := leaveRoom rooms1 roomId sid },
         [(Recipient.socket sid,
           Payload.error "Another instructor is already active in this session.")])
      else
        let session' := admitInstructor gc.1 sid userId now
        ({ sessions := mapSet gc.2 roomId session', rooms := rooms1 },
         [(Recipient.room roomId,
           Payload.broadcastStarted userId session'.startTime),
          (Recipient.room roomId,
           Payload.participantsUpdated (participantCount session'))])
    else
      let session' := admitStudent gc.1 sid userId now
      ({ sessions := mapSet gc.2 roomId session', rooms := rooms1 },
       (match gc.1.instructor with
        | some ins =>
          if ins.active then
            [(Recipient.socket ins.socketId,
              Payload.studentJoined roomId userId session'.students.length)]
          else []
        | none => []) ++
       [(Recipient.socket sid,
         Payload.sessionInfo session'.isLive session'.startTime session'.messages
           session'.students.length (instructorActiveFlag session')),
        (Recipient.room roomId,
         Payload.participantsUpdated (participantCount session'))])
  else
    (st, [(Recipient.socket sid, Payload.error "Invalid join parameters.")])

/-- The socket event names for which `io.on("connection", ...)` registers a
listener (src/server.js lines 122-193): only `"join-broadcast"`. -/
def registeredSocketEvents : List String := ["join-broadcast"]

/-- What the program does to the session registry when a connection is
lost: the connection handler registers no `"disconnect"` listener (see
`registeredSocketEvents`), so no session field is touched and no event is
emitted by the code of the repository. -/
def handleDisconnect (st : ServerState) (_sid : String) :
    ServerState × List (Recipient × Payload) :=
  (st, [])

/-- One entry of the `GET /api/live-sessions` response
(src/server.js lines 201-206). -/
structure LiveSessionEntry where
  id : String
  startTime : Option Nat
  participants : Nat
  instructorId : String
  deriving Repr, DecidableEq

/-- The body of the `sessions.forEach` at src/server.js lines 199-208:
push an entry when `session.isLive && session.instructor?.active`. -/
def liveEntry (p : String × Session) : Option LiveSessionEntry :=
  match p.2.instructor with
  | some ins =>
    if p.2.isLive && ins.active then
      some { id := p.1, startTime := p.2.startTime,
             participants := p.2.students.length + (if ins.active then 1 else 0),
             instructorId := ins.id }
    else none
  | none => none

/-- The `GET /api/live-sessions` handler (src/server.js lines 196-214):
a pure read of the `sessions` Map in iteration order. -/
def liveSessions (sessions : List (String × Session)) : List LiveSessionEntry :=
  sessions.filterMap liveEntry

/-- One `join-broadcast` request as received by the handler. -/
structure JoinRequest where
  sid : String
  roomId : String
  userId : String
  userType : String
  now : Nat
  deriving Repr, DecidableEq

/-- The state transition of one request (emissions dropped). -/
def applyRequest (st : ServerState) (r : JoinRequest) : ServerState :=
  (joinBroadcast st r.sid r.roomId r.userId r.userType r.now).1

/-- Run a sequence of `join-broadcast` requests. -/
def runRequests (st : ServerState) (rs : List JoinRequest) : ServerState :=
  rs.foldl applyRequest st

/-- The server state at startup: `const sessions = new Map()` and no
room memberships. -/
def initialState : ServerState := { sessions := [], rooms := [] }

/-! ## Map lemmas -/

theorem mapGet_mapSet_self {α : Type} (m : List (String × α)) (k : String) (v : α) :
    mapGet (mapSet m k v) k = some v := by
  induction m with
  | nil => simp [mapSet, mapGet]
  | cons p rest ih =>
    obtain ⟨k', v'⟩ := p
    by_cases h : k' = k
    · subst h; simp [mapSet, mapGet]
    · simp [mapSet, mapGet, h, ih]

theorem mapGet_mapSet_ne {α : Type} (m : List (String × α)) (k q : String) (v : α)
    (h : q ≠ k) : mapGet (mapSet m k v) q = mapGet m q := by
  induction m with
  | nil => simp [mapSet, mapGet, Ne.symm h]
  | cons p rest ih =>
    obtain ⟨k', v'⟩ := p
    by_cases hk : k' = k
    · subst hk; simp [mapSet, mapGet, Ne.symm h]
    · by_cases hq : k' = q
      · subst hq; simp [mapSet, mapGet, hk]
      · simp [mapSet, mapGet, hk, hq, ih]

theorem length_mapSet_of_isSome {α : Type} (m : List (String × α)) (k : String) (v : α)
    (h : (mapGet m k).isSome) : (mapSet m k v).length = m.length := by
  induction m with
  | nil => simp [mapGet] at h
  | cons p rest ih =>
    obtain ⟨k', v'⟩ := p
    by_cases hk : k' = k
    · subst hk; simp [mapSet]
    · simp [mapGet, hk] at h
      simp [mapSet, hk, ih h]

/-! ## Branch characterizations of the handler -/

theorem getOrCreate_fst (sessions : List (String × Session)) (roomId : String)
    (now : Nat) :
    (getOrCreate sessions roomId now).1 =
      (mapGet sessions roomId).getD (freshSession now) := by
  unfold getOrCreate
  cases mapGet sessions roomId <;> simp

theorem mapGet_getOrCreate_snd (sessions : List (String × Session)) (roomId : String)
    (now : Nat) :
    mapGet (getOrCreate sessions roomId now).2 roomId =
      some (getOrCreate sessions roomId now).1 := by
  unfold getOrCreate
  cases h : mapGet sessions roomId with
  | some s => simpa using h
  | none => simp [mapGet_mapSet_self]

theorem mapGet_getOrCreate_snd_ne (sessions : List (String × Session))
    (roomId q : String) (now : Nat) (hq : q ≠ roomId) :
    mapGet (getOrCreate sessions roomId now).2 q = mapGet sessions q := by
  unfold getOrCreate
  cases mapGet sessions roomId <;> simp [mapGet_mapSet_ne _ _ _ _ hq]

theorem joinBroadcast_invalid (st : ServerState) (sid roomId userId userType : String)
    (now : Nat) (h : validParams roomId userId userType = false) :
    joinBroadcast st sid roomId userId userType now =
      (st, [(Recipient.socket sid, Payload.error "Invalid join parameters.")]) := by
  simp [joinBroadcast, h]

theorem joinBroadcast_conflict (st : ServerState) (sid roomId userId : String)
    (now : Nat)
    (hv : validParams roomId userId "instructor" = true)
    (hc : instructorConflict (getOrCreate st.sessions roomId now).1 sid = true) :
    joinBroadcast st sid roomId userId "instructor" now =
      ({ sessions := (getOrCreate st.sessions roomId now).2,
         rooms := leaveRoom (joinRoom st.rooms roomId sid) roomId sid },
       [(Recipient.socket sid,
         Payload.error "Another instructor is already active in this session.")]) := by
  simp [joinBroadcast, hv, hc]

theorem joinBroadcast_instructor (st : ServerState) (sid roomId userId : String)
    (now : Nat)
    (hv : validParams roomId userId "instructor" = true)
    (hc : instructorConflict (getOrCreate st.sessions roomId now).1 sid = false) :
    joinBroadcast st sid roomId userId "instructor" now =
      ({ sessions := mapSet (getOrCreate st.sessions roomId now).2 roomId
           (admitInstructor (getOrCreate st.sessions roomId now).1 sid userId now),
         rooms := joinRoom st.rooms roomId sid },
       [(Recipient.room roomId, Payload.broadcastStarted userId
           (admitInstructor (getOrCreate st.sessions roomId now).1 sid userId now).startTime),
        (Recipient.room roomId, Payload.participantsUpdated
           (participantCount
             (admitInstructor (getOrCreate st.sessions roomId now).1 sid userId now)))]) := by
  simp [joinBroadcast, hv, hc]

theorem joinBroadcast_student (st : ServerState) (sid roomId userId : String)
    (now : Nat)
    (hv : validParams roomId userId "student" = true) :
    joinBroadcast st sid roomId userId "student" now =
      ({ sessions := mapSet (getOrCreate st.sessions roomId now).2 roomId
           (admitStudent (getOrCreate st.sessions roomId now).1 sid userId now),
         rooms := joinRoom st.rooms roomId sid },
       (match (getOrCreate st.sessions roomId now).1.instructor with
        | some ins =>
          if ins.active then
            [(Recipient.socket ins.socketId, Payload.studentJoined roomId userId
               (admitStudent (getOrCreate st.sessions roomId now).1 sid userId
                 now).students.length)]
          else []
        | none => []) ++
       [(Recipient.socket sid, Payload.sessionInfo
           (admitStudent (getOrCreate st.sessions roomId now).1 sid userId now).isLive
           (admitStudent (getOrCreate st.sessions roomId now).1 sid userId now).startTime
           (admitStudent (getOrCreate st.sessions roomId now).1 sid userId now).messages
           (admitStudent (getOrCreate st.sessions roomId now).1 sid userId
             now).students.length
           (instructorActiveFlag
             (admitStudent (getOrCreate st.sessions roomId now).1 sid userId now))),
        (Recipient.room roomId, Payload.participantsUpdated
           (participantCount
             (admitStudent (getOrCreate st.sessions roomId now).1 sid userId now)))]) := by
  simp [joinBroadcast, hv]

theorem validParams_cases (roomId userId userType : String)
    (h : validParams roomId userId userType = true) :
    roomId ≠ "" ∧ userId ≠ "" ∧ (userType = "instructor" ∨ userType = "student") := by
  have h' := h
  simp [validParams] at h'
  tauto

theorem runRequests_cons (st : ServerState) (r : JoinRequest) (rs : List JoinRequest) :
    runRequests st (r :: rs) = runRequests (applyRequest st r) rs := rfl

/-- After one request, the session stored under any key is either the one
stored before, or (for the room of the request itself) the pre-state session
(possibly freshly created), its instructor-admitted update, or its
student-admitted update. -/
theorem applyRequest_mapGet (st : ServerState) (r : JoinRequest) (q : String) :
    mapGet (applyRequest st r).sessions q = mapGet st.sessions q ∨
    (q = r.roomId ∧
     (mapGet (applyRequest st r).sessions q =
        some ((mapGet st.sessions q).getD (freshSession r.now)) ∨
      mapGet (applyRequest st r).sessions q =
        some (admitInstructor ((mapGet st.sessions q).getD (freshSession r.now))
          r.sid r.userId r.now) ∨
      mapGet (applyRequest st r).sessions q =
        some (admitStudent ((mapGet st.sessions q).getD (freshSession r.now))
          r.sid r.userId r.now))) := by
  by_cases hv : validParams r.roomId r.userId r.userType = true
  · obtain ⟨-, -, hty⟩ := validParams_cases _ _ _ hv
    by_cases hq : q = r.roomId
    · subst hq
      rcases hty with hty | hty
      · rw [hty] at hv
        unfold applyRequest
        rw [hty]
        by_cases hc : instructorConflict (getOrCreate st.sessions r.roomId r.now).1 r.sid = true
        · rw [joinBroadcast_conflict st r.sid r.roomId r.userId r.now hv hc]
          right
          exact ⟨rfl, Or.inl (by rw [mapGet_getOrCreate_snd, getOrCreate_fst])⟩
        · rw [joinBroadcast_instructor st r.sid r.roomId r.userId r.now hv
            (by simpa using hc)]
          right
          exact ⟨rfl, Or.inr (Or.inl (by rw [mapGet_mapSet_self, getOrCreate_fst]))⟩
      · rw [hty] at hv
        unfold applyRequest
        rw [hty]
        rw [joinBroadcast_student st r.sid r.roomId r.userId r.now hv]
        right
        exact ⟨rfl, Or.inr (Or.inr (by rw [mapGet_mapSet_self, getOrCreate_fst]))⟩
    · left
      rcases hty with hty | hty
      · rw [hty] at hv
        unfold applyRequest
        rw [hty]
        by_cases hc : instructorConflict (getOrCreate st.sessions r.roomId r.now).1 r.sid = true
        · rw [joinBroadcast_conflict st r.sid r.roomId r.userId r.now hv hc]
          exact mapGet_getOrCreate_snd_ne _ _ _ _ hq
        · rw [joinBroadcast_instructor st r.sid r.roomId r.userId r.now hv
            (by simpa using hc)]
          rw [mapGet_mapSet_ne _ _ _ _ hq]
          exact mapGet_getOrCreate_snd_ne _ _ _ _ hq
      · rw [hty] at hv
        unfold applyRequest
        rw [hty]
        rw [joinBroadcast_student st r.sid r.roomId r.userId r.now hv]
        rw [mapGet_mapSet_ne _ _ _ _ hq]
        exact mapGet_getOrCreate_snd_ne _ _ _ _ hq
  · left
    have h0 : validParams r.roomId r.userId r.userType = false := by simpa using hv
    rw [applyRequest, joinBroadcast_invalid _ _ _ _ _ _ h0]

/-- A per-session property closed under fresh creation, instructor
admission and student admission is preserved by one request. -/
theorem applyRequest_invariant (P : Session → Prop)
    (hfresh : ∀ now, P (freshSession now))
    (hins : ∀ s sid userId now, P s → P (admitInstructor s sid userId now))
    (hstu : ∀ s sid userId now, P s → P (admitStudent s sid userId now))
    (st : ServerState) (hst : ∀ q s, mapGet st.sessions q = some s → P s)
    (r : JoinRequest) (q : String) (s : Session)
    (h : mapGet (applyRequest st r).sessions q = some s) : P s := by
  have hpre : P ((mapGet st.sessions q).getD (freshSession r.now)) := by
    cases hmg : mapGet st.sessions q with
    | some s0 => exact hst q s0 hmg
    | none => exact hfresh r.now
  rcases applyRequest_mapGet st r q with heq | ⟨-, heq | heq | heq⟩
  · exact hst q s (heq ▸ h)
  · rw [heq] at h
    exact Option.some_injective _ h ▸ hpre
  · rw [heq] at h
    exact Option.some_injective _ h ▸ hins _ _ _ _ hpre
  · rw [heq] at h
    exact Option.some_injective _ h ▸ hstu _ _ _ _ hpre

/-- Closure of a per-session property along any request sequence. -/
theorem runRequests_invariant (P : Session → Prop)
    (hfresh : ∀ now, P (freshSession now))
    (hins : ∀ s sid userId now, P s → P (admitInstructor s sid userId now))
    (hstu : ∀ s sid userId now, P s → P (admitStudent s sid userId now)) :
    ∀ (rs : List JoinRequest) (st : ServerState),
      (∀ q s, mapGet st.sessions q = some s → P s) →
      ∀ q s, mapGet (runRequests st rs).sessions q = some s → P s := by
  intro rs
  induction rs with
  | nil => intro st hst q s h; exact hst q s h
  | cons r rest ih =>
    intro st hst q s h
    rw [runRequests_cons] at h
    exact ih (applyRequest st r)
      (fun q' s' h' => applyRequest_invariant P hfresh hins hstu st hst r q' s' h')
      q s h

/-! ## Example fixtures shared by witnesses -/

/-- A session with an active instructor `alice` on connection `A`,
no students, already-started broadcast (`startTime = 7`). -/
def exSession : Session :=
  { instructor := some { id := "alice", socketId := "A", active := true },
    students := [], messages := [], isLive := true, startTime := some 7,
    createdAt := 0 }

/-- A server state with room `r1` owned by `exSession` and connection `A`
in the broadcast group of the room. -/
def exState : ServerState :=
  { sessions := [("r1", exSession)], rooms := [("r1", "A")] }

/-! ## Claim theorems -/

/-- C1: a join-broadcast with role instructor, against a session whose
recorded instructor is active on a different connection, is rejected: the
only emission is the conflict error to the requesting connection, the
sessions map is unchanged, the requester is not in the broadcast group of
the room afterward, and no room-addressed emission occurs. -/
theorem instructor_conflict_rejection (st : ServerState)
    (sid roomId userId : String) (now : Nat) (s : Session) (ins : InstructorRec)
    (hv : validParams roomId userId "instructor" = true)
    (hs : mapGet st.sessions roomId = some s)
    (hins : s.instructor = some ins)
    (hactive : ins.active = true)
    (hdiff : ins.socketId ≠ sid) :
    (joinBroadcast st sid roomId userId "instructor" now).2 =
      [(Recipient.socket sid,
        Payload.error "Another instructor is already active in this session.")] ∧
    (joinBroadcast st sid roomId userId "instructor" now).1.sessions = st.sessions ∧
    (roomId, sid) ∉ (joinBroadcast st sid roomId userId "instructor" now).1.rooms ∧
    ∀ rid p, (Recipient.room rid, p) ∉
      (joinBroadcast st sid roomId userId "instructor" now).2 := by
  have hc : instructorConflict (getOrCreate st.sessions roomId now).1 sid = true := by
    rw [getOrCreate_fst, hs]
    simp [instructorConflict, hins, hactive, hdiff]
  rw [joinBroadcast_conflict st sid roomId userId now hv hc]
  refine ⟨rfl, ?_, ?_, ?_⟩
  · simp [getOrCreate, hs]
  · simp [leaveRoom]
  · intro rid p
    simp

/-- Witness for C1: instructor `carol` on connection `C` is rejected while
`alice` is active on connection `A` in room `r1`. -/
theorem instructor_conflict_rejection_witness :
    (joinBroadcast exState "C" "r1" "carol" "instructor" 9).2 =
      [(Recipient.socket "C",
        Payload.error "Another instructor is already active in this session.")] ∧
    (joinBroadcast exState "C" "r1" "carol" "instructor" 9).1.sessions =
      exState.sessions ∧
    ("r1", "C") ∉ (joinBroadcast exState "C" "r1" "carol" "instructor" 9).1.rooms ∧
    ∀ rid p, (Recipient.room rid, p) ∉
      (joinBroadcast exState "C" "r1" "carol" "instructor" 9).2 :=
  instructor_conflict_rejection exState "C" "r1" "carol" 9 exSession
    { id := "alice", socketId := "A", active := true }
    (by decide) (by decide) (by decide) (by decide) (by decide)

/-- C2 (code bug): the connection handler of src/server.js registers no
"disconnect" listener, so when the connection of the active instructor is lost
the session registry is left untouched and nothing is emitted: `active`
stays true and `isLive` stays true, contradicting the required leave
transition. -/
theorem disconnect_applies_no_leave_transition :
    "disconnect" ∉ registeredSocketEvents ∧
    handleDisconnect exState "A" = (exState, []) ∧
    ∃ s, mapGet (handleDisconnect exState "A").1.sessions "r1" = some s ∧
      s.isLive = true ∧
      s.instructor = some { id := "alice", socketId := "A", active := true } := by
  exact ⟨by decide, rfl, exSession, by decide, rfl, rfl⟩

/-- One request never clears an already-set `startTime` of any session. -/
theorem startTime_preserved_step (st : ServerState) (r : JoinRequest) (q : String)
    (t : Nat)
    (h : (mapGet st.sessions q).map Session.startTime = some (some t)) :
    (mapGet (applyRequest st r).sessions q).map Session.startTime = some (some t) := by
  obtain ⟨s, hs, hst⟩ : ∃ s, mapGet st.sessions q = some s ∧ s.startTime = some t := by
    cases hmg : mapGet st.sessions q with
    | some s0 =>
      rw [hmg] at h
      exact ⟨s0, rfl, by simpa using h⟩
    | none =>
      rw [hmg] at h
      simp at h
  rcases applyRequest_mapGet st r q with heq | ⟨-, heq | heq | heq⟩
  · rw [heq, hs]
    simpa using hst
  · rw [heq, hs]
    simpa using hst
  · rw [heq, hs]
    simp [admitInstructor, hst]
  · rw [heq, hs]
    simp [admitStudent, hst]

/-- C3: a successful instructor admission sets `startTime` to the current
time exactly when it is currently null (`Option.getD` keeps a set value),
and any subsequent sequence of join-broadcast requests leaves a set
`startTime` unchanged. -/
theorem startTime_set_once :
    (∀ (st : ServerState) (sid roomId userId : String) (now : Nat) (s : Session),
      mapGet st.sessions roomId = some s →
      validParams roomId userId "instructor" = true →
      instructorConflict s sid = false →
      ∃ s', mapGet (joinBroadcast st sid roomId userId "instructor" now).1.sessions
          roomId = some s' ∧
        s'.startTime = some (s.startTime.getD now)) ∧
    (∀ (st : ServerState) (roomId : String) (t : Nat) (rs : List JoinRequest),
      (mapGet st.sessions roomId).map Session.startTime = some (some t) →
      (mapGet (runRequests st rs).sessions roomId).map Session.startTime =
        some (some t)) := by
  constructor
  · intro st sid roomId userId now s hs hv hc
    have hg : (getOrCreate st.sessions roomId now).1 = s := by
      rw [getOrCreate_fst, hs]
      rfl
    have hc' : instructorConflict (getOrCreate st.sessions roomId now).1 sid = false := by
      rw [hg]
      exact hc
    refine ⟨admitInstructor (getOrCreate st.sessions roomId now).1 sid userId now,
      ?_, ?_⟩
    · rw [joinBroadcast_instructor st sid roomId userId now hv hc']
      exact mapGet_mapSet_self _ _ _
    · rw [hg]
      rfl
  · intro st roomId t rs h
    induction rs generalizing st with
    | nil => exact h
    | cons r rest ih =>
      rw [runRequests_cons]
      exact ih (applyRequest st r) (startTime_preserved_step st r roomId t h)

/-- Witness for C3: re-admitting `alice` keeps `startTime = 7`, and a
subsequent student join preserves it too. -/
theorem startTime_set_once_witness :
    (∃ s', mapGet (joinBroadcast exState "A" "r1" "alice" "instructor" 9).1.sessions
        "r1" = some s' ∧ s'.startTime = some (exSession.startTime.getD 9)) ∧
    (mapGet (runRequests exState [⟨"B", "r1", "bob", "student", 11⟩]).sessions
        "r1").map Session.startTime = some (some 7) :=
  ⟨startTime_set_once.1 exState "A" "r1" "alice" 9 exSession
      (by decide) (by decide) (by decide),
   startTime_set_once.2 exState "r1" 7 [⟨"B", "r1", "bob", "student", 11⟩]
      (by decide)⟩

theorem instructorActiveFlag_some (s : Session) (ins : InstructorRec)
    (h : s.instructor = some ins) : instructorActiveFlag s = ins.active := by
  unfold instructorActiveFlag
  rw [h]

theorem instructorActiveFlag_none (s : Session)
    (h : s.instructor = none) : instructorActiveFlag s = false := by
  unfold instructorActiveFlag
  rw [h]

/-- C4: in every state reachable from the initial state by join-broadcast
requests, every registered session has `isLive = true` exactly when its
instructor record is present and active. -/
theorem isLive_iff_instructor_active (rs : List JoinRequest) (roomId : String)
    (s : Session)
    (hs : mapGet (runRequests initialState rs).sessions roomId = some s) :
    s.isLive = true ↔ ∃ ins, s.instructor = some ins ∧ ins.active = true := by
  have key : ∀ q s', mapGet (runRequests initialState rs).sessions q = some s' →
      s'.isLive = instructorActiveFlag s' := by
    refine runRequests_invariant (fun s' => s'.isLive = instructorActiveFlag s')
      (fun now => rfl) (fun s' sid userId now _ => rfl)
      (fun s' sid userId now h => h) rs initialState ?_
    intro q s' h
    simp [initialState, mapGet] at h
  rw [key roomId s hs]
  cases hins : s.instructor with
  | some ins =>
    rw [instructorActiveFlag_some s ins hins]
    constructor
    · intro h
      exact ⟨ins, rfl, h⟩
    · rintro ⟨ins', hins', h⟩
      have he : ins = ins' := Option.some_injective _ hins'
      rw [he]
      exact h
  | none =>
    rw [instructorActiveFlag_none s hins]
    simp [hins]

/-- The session produced by a single instructor join of `alice` at time 5
on a fresh server. -/
def exAdmittedSession : Session :=
  { instructor := some { id := "alice", socketId := "A", active := true },
    students := [], messages := [], isLive := true, startTime := some 5,
    createdAt := 5 }

/-- Witness for C4: the session produced by a single instructor join. -/
theorem isLive_iff_instructor_active_witness :
    exAdmittedSession.isLive = true ↔
    ∃ ins, exAdmittedSession.instructor = some ins ∧ ins.active = true :=
  isLive_iff_instructor_active [⟨"A", "r1", "alice", "instructor", 5⟩] "r1" _
    (by decide)

/-- C5: after every successful admission (student, or instructor without a
conflict) the room receives a `participants-updated` whose count is the
post-admission `students.size` plus one exactly when the instructor record
is active; a rejected request (invalid parameters or instructor conflict)
emits no `participants-updated` to the room. -/
theorem participants_updated_after_admission :
    (∀ (st : ServerState) (sid roomId userId userType : String) (now : Nat),
      validParams roomId userId userType = true →
      (userType = "student" ∨
        (userType = "instructor" ∧
          instructorConflict ((mapGet st.sessions roomId).getD (freshSession now))
            sid = false)) →
      ∃ s', mapGet (joinBroadcast st sid roomId userId userType now).1.sessions
          roomId = some s' ∧
        (Recipient.room roomId,
          Payload.participantsUpdated
            (s'.students.length + if instructorActiveFlag s' then 1 else 0)) ∈
          (joinBroadcast st sid roomId userId userType now).2) ∧
    (∀ (st : ServerState) (sid roomId userId userType : String) (now : Nat) (c : Nat),
      (validParams roomId userId userType = false ∨
        (userType = "instructor" ∧
          instructorConflict ((mapGet st.sessions roomId).getD (freshSession now))
            sid = true)) →
      (Recipient.room roomId, Payload.participantsUpdated c) ∉
        (joinBroadcast st sid roomId userId userType now).2) := by
  constructor
  · intro st sid roomId userId userType now hv hadmit
    rcases hadmit with hty | ⟨hty, hc⟩
    · subst hty
      rw [joinBroadcast_student st sid roomId userId now hv]
      refine ⟨admitStudent (getOrCreate st.sessions roomId now).1 sid userId now,
        mapGet_mapSet_self _ _ _, ?_⟩
      simp [participantCount]
    · subst hty
      have hc' : instructorConflict (getOrCreate st.sessions roomId now).1 sid
          = false := by
        rw [getOrCreate_fst]
        exact hc
      rw [joinBroadcast_instructor st sid roomId userId now hv hc']
      refine ⟨admitInstructor (getOrCreate st.sessions roomId now).1 sid userId now,
        mapGet_mapSet_self _ _ _, ?_⟩
      simp [participantCount]
  · intro st sid roomId userId userType now c hrej
    by_cases hv : validParams roomId userId userType = true
    · rcases hrej with hrej | ⟨hty, hc⟩
      · rw [hv] at hrej
        exact absurd hrej (by simp)
      · subst hty
        have hc' : instructorConflict (getOrCreate st.sessions roomId now).1 sid
            = true := by
          rw [getOrCreate_fst]
          exact hc
        rw [joinBroadcast_conflict st sid roomId userId now hv hc']
        simp
    · rw [joinBroadcast_invalid st sid roomId userId userType now (by simpa using hv)]
      simp

/-- Witness for C5: student `bob` joining `r1` (instructor active) yields
`participants-updated{count = 2}`; the conflicting join of instructor `carol` yields none. -/
theorem participants_updated_after_admission_witness :
    (∃ s', mapGet (joinBroadcast exState "B" "r1" "bob" "student" 11).1.sessions
        "r1" = some s' ∧
      (Recipient.room "r1",
        Payload.participantsUpdated
          (s'.students.length + if instructorActiveFlag s' then 1 else 0)) ∈
        (joinBroadcast exState "B" "r1" "bob" "student" 11).2) ∧
    (Recipient.room "r1", Payload.participantsUpdated 0) ∉
      (joinBroadcast exState "C" "r1" "carol" "instructor" 9).2 :=
  ⟨participants_updated_after_admission.1 exState "B" "r1" "bob" "student" 11
      (by decide) (Or.inl rfl),
   participants_updated_after_admission.2 exState "C" "r1" "carol" "instructor" 9 0
      (Or.inr ⟨rfl, by decide⟩)⟩

/-- C6 counterexample: for the concrete invalid request (empty identity on
an unknown room) the handler emits the error string
"Invalid join parameters.", not "Invalid parameters." as the claim
states. -/
theorem invalid_params_message_counterexample :
    (joinBroadcast initialState "S" "r1" "" "student" 0).2 =
      [(Recipient.socket "S", Payload.error "Invalid join parameters.")] ∧
    (Recipient.socket "S", Payload.error "Invalid parameters.") ∉
      (joinBroadcast initialState "S" "r1" "" "student" 0).2 := by
  decide

/-- C6 (amended): an invalid join-broadcast (empty room, empty identity,
or unrecognized role) leaves the server state untouched — in particular no
session is created for an unknown room — and emits exactly one
notification, the error "Invalid join parameters." to the requesting
connection. -/
theorem invalid_params_rejected (st : ServerState)
    (sid roomId userId userType : String) (now : Nat)
    (h : validParams roomId userId userType = false) :
    joinBroadcast st sid roomId userId userType now =
      (st, [(Recipient.socket sid, Payload.error "Invalid join parameters.")]) ∧
    mapGet (joinBroadcast st sid roomId userId userType now).1.sessions roomId =
      mapGet st.sessions roomId := by
  have heq := joinBroadcast_invalid st sid roomId userId userType now h
  exact ⟨heq, by rw [heq]⟩

/-- Witness for C6 (amended): the empty-identity request against a fresh
server mutates nothing and yields only the error. -/
theorem invalid_params_rejected_witness :
    joinBroadcast initialState "S" "r1" "" "student" 3 =
      (initialState, [(Recipient.socket "S",
        Payload.error "Invalid join parameters.")]) ∧
    mapGet (joinBroadcast initialState "S" "r1" "" "student" 3).1.sessions "r1" =
      mapGet initialState.sessions "r1" :=
  invalid_params_rejected initialState "S" "r1" "" "student" 3 (by decide)

/-- C7: a student join-broadcast (with non-empty room and identity) is
always admitted: the students map of the stored session gets the entry for
the identity inserted or replaced with the new connection reference, `active =
true` and a fresh `joinedAt`; the entries of other students, the instructor
record, `isLive` and `startTime` are exactly those of the pre-admission
session; and re-admission of an already-present identity keeps the map
size unchanged. -/
theorem student_admission_frame (st : ServerState) (sid roomId userId : String)
    (now : Nat)
    (hroom : roomId ≠ "") (huser : userId ≠ "") :
    ∃ s', mapGet (joinBroadcast st sid roomId userId "student" now).1.sessions
        roomId = some s' ∧
      s'.students =
        mapSet ((mapGet st.sessions roomId).getD (freshSession now)).students
          userId { socketId := sid, active := true, joinedAt := now } ∧
      mapGet s'.students userId =
        some { socketId := sid, active := true, joinedAt := now } ∧
      (∀ uid, uid ≠ userId → mapGet s'.students uid =
        mapGet ((mapGet st.sessions roomId).getD (freshSession now)).students uid) ∧
      s'.instructor = ((mapGet st.sessions roomId).getD (freshSession now)).instructor ∧
      s'.isLive = ((mapGet st.sessions roomId).getD (freshSession now)).isLive ∧
      s'.startTime = ((mapGet st.sessions roomId).getD (freshSession now)).startTime ∧
      ((mapGet ((mapGet st.sessions roomId).getD (freshSession now)).students
          userId).isSome →
        s'.students.length =
          ((mapGet st.sessions roomId).getD (freshSession now)).students.length) := by
  have hv : validParams roomId userId "student" = true := by
    simp [validParams, hroom, huser]
  rw [joinBroadcast_student st sid roomId userId now hv, getOrCreate_fst]
  refine ⟨admitStudent ((mapGet st.sessions roomId).getD (freshSession now))
      sid userId now,
    mapGet_mapSet_self _ _ _, rfl, mapGet_mapSet_self _ _ _, ?_, rfl, rfl, rfl, ?_⟩
  · intro uid huid
    exact mapGet_mapSet_ne _ _ _ _ huid
  · intro hmem
    exact length_mapSet_of_isSome _ _ _ hmem

/-- Witness for C7: `bob` joins room `r1` of `exState`. -/
theorem student_admission_frame_witness :
    ∃ s', mapGet (joinBroadcast exState "B" "r1" "bob" "student" 11).1.sessions
        "r1" = some s' ∧
      s'.students =
        mapSet ((mapGet exState.sessions "r1").getD (freshSession 11)).students
          "bob" { socketId := "B", active := true, joinedAt := 11 } ∧
      mapGet s'.students "bob" =
        some { socketId := "B", active := true, joinedAt := 11 } ∧
      (∀ uid, uid ≠ "bob" → mapGet s'.students uid =
        mapGet ((mapGet exState.sessions "r1").getD (freshSession 11)).students uid) ∧
      s'.instructor = ((mapGet exState.sessions "r1").getD (freshSession 11)).instructor ∧
      s'.isLive = ((mapGet exState.sessions "r1").getD (freshSession 11)).isLive ∧
      s'.startTime = ((mapGet exState.sessions "r1").getD (freshSession 11)).startTime ∧
      ((mapGet ((mapGet exState.sessions "r1").getD (freshSession 11)).students
          "bob").isSome →
        s'.students.length =
          ((mapGet exState.sessions "r1").getD (freshSession 11)).students.length) :=
  student_admission_frame exState "B" "r1" "bob" 11 (by decide) (by decide)

/-- C8: the live-sessions query lists exactly the registered sessions that
are live with an active instructor, reporting the room id, the `startTime`
of the session, `participants = students.size + 1`, and the identity of
the instructor. (The handler at src/server.js lines 196-214 only reads the
`sessions` Map; it is embedded as the pure function `liveSessions`.) -/
theorem live_sessions_query (sessions : List (String × Session))
    (e : LiveSessionEntry) :
    e ∈ liveSessions sessions ↔
      ∃ roomId s ins, (roomId, s) ∈ sessions ∧ s.instructor = some ins ∧
        s.isLive = true ∧ ins.active = true ∧
        e = { id := roomId, startTime := s.startTime,
              participants := s.students.length + 1, instructorId := ins.id } := by
  rw [liveSessions, List.mem_filterMap]
  constructor
  · rintro ⟨⟨roomId, s⟩, hmem, hf⟩
    unfold liveEntry at hf
    split at hf
    case h_2 => cases hf
    case h_1 ins heq =>
      split at hf
      case isTrue h =>
        obtain ⟨hl, ha⟩ := (Bool.and_eq_true _ _).mp h
        refine ⟨roomId, s, ins, hmem, heq, hl, ha, ?_⟩
        have he := Option.some_injective _ hf
        rw [← he]
        simp [ha]
      case isFalse h => cases hf
  · rintro ⟨roomId, s, ins, hmem, hins, hl, ha, rfl⟩
    refine ⟨(roomId, s), hmem, ?_⟩
    unfold liveEntry
    rw [hins]
    simp [hl, ha]

/-- Witness for C8: the query on `exState` (live instructor `alice`,
`startTime = 7`, no students). -/
theorem live_sessions_query_witness :
    ({ id := "r1", startTime := some 7, participants := 1,
       instructorId := "alice" } : LiveSessionEntry) ∈
      liveSessions exState.sessions ↔
    ∃ roomId s ins, (roomId, s) ∈ exState.sessions ∧ s.instructor = some ins ∧
      s.isLive = true ∧ ins.active = true ∧
      ({ id := "r1", startTime := some 7, participants := 1,
         instructorId := "alice" } : LiveSessionEntry) =
        { id := roomId, startTime := s.startTime,
          participants := s.students.length + 1, instructorId := ins.id } :=
  live_sessions_query exState.sessions _

/-- Every reachable session with no instructor record is not live and has
no `startTime` (the code never clears an instructor record, so sessions
without one are exactly the freshly created ones, possibly with
students). -/
theorem no_instructor_fresh_invariant (rs : List JoinRequest) (q : String)
    (s : Session)
    (hs : mapGet (runRequests initialState rs).sessions q = some s)
    (hnone : s.instructor = none) : s.isLive = false ∧ s.startTime = none := by
  have key := runRequests_invariant
    (fun s' => s'.instructor = none → (s'.isLive = false ∧ s'.startTime = none))
    (fun now => fun _ => ⟨rfl, rfl⟩)
    (fun s' sid userId now _ => by
      intro h
      simp [admitInstructor] at h)
    (fun s' sid userId now h => by
      intro hn
      exact h hn)
    rs initialState
    (by
      intro q' s' h'
      simp [initialState, mapGet] at h')
  exact key q s hs hnone

/-- C9: a student join-broadcast (non-empty room and identity) on a
reachable state whose target room has no instructor record — including a
previously unknown room — is admitted: the session exists afterwards with
the fresh entry of the student, and the emissions are exactly `session-info` to
the joining connection with `isLive = false`, `startTime = null`,
`instructorActive = false` and `totalStudents` counting the joining
student, followed by the room-wide `participants-updated`; in particular
no `student-joined` is emitted. -/
theorem student_join_no_instructor (rs : List JoinRequest)
    (sid roomId userId : String) (now : Nat)
    (hroom : roomId ≠ "") (huser : userId ≠ "")
    (hnoins : ((mapGet (runRequests initialState rs).sessions roomId).getD
        (freshSession now)).instructor = none) :
    ∃ s', mapGet (joinBroadcast (runRequests initialState rs) sid roomId userId
        "student" now).1.sessions roomId = some s' ∧
      mapGet s'.students userId =
        some { socketId := sid, active := true, joinedAt := now } ∧
      (joinBroadcast (runRequests initialState rs) sid roomId userId "student"
          now).2 =
        [(Recipient.socket sid, Payload.sessionInfo false none
            ((mapGet (runRequests initialState rs).sessions roomId).getD
              (freshSession now)).messages s'.students.length false),
         (Recipient.room roomId,
          Payload.participantsUpdated s'.students.length)] := by
  have hv : validParams roomId userId "student" = true := by
    simp [validParams, hroom, huser]
  have hpre : ((mapGet (runRequests initialState rs).sessions roomId).getD
      (freshSession now)).isLive = false ∧
      ((mapGet (runRequests initialState rs).sessions roomId).getD
        (freshSession now)).startTime = none := by
    cases hmg : mapGet (runRequests initialState rs).sessions roomId with
    | some s0 =>
      rw [hmg] at hnoins
      simpa using no_instructor_fresh_invariant rs roomId s0 hmg
        (by simpa using hnoins)
    | none =>
      exact ⟨rfl, rfl⟩
  rw [joinBroadcast_student _ sid roomId userId now hv, getOrCreate_fst]
  refine ⟨admitStudent ((mapGet (runRequests initialState rs).sessions
      roomId).getD (freshSession now)) sid userId now,
    mapGet_mapSet_self _ _ _, mapGet_mapSet_self _ _ _, ?_⟩
  rw [hnoins]
  simp [participantCount, hpre.1, hpre.2, admitStudent]
  exact instructorActiveFlag_none _ hnoins

/-- Witness for C9: `bob` joins the unknown room `r2` on a fresh server. -/
theorem student_join_no_instructor_witness :
    ∃ s', mapGet (joinBroadcast (runRequests initialState []) "B" "r2" "bob"
        "student" 4).1.sessions "r2" = some s' ∧
      mapGet s'.students "bob" =
        some { socketId := "B", active := true, joinedAt := 4 } ∧
      (joinBroadcast (runRequests initialState []) "B" "r2" "bob" "student"
          4).2 =
        [(Recipient.socket "B", Payload.sessionInfo false none
            ((mapGet (runRequests initialState []).sessions "r2").getD
              (freshSession 4)).messages s'.students.length false),
         (Recipient.room "r2",
          Payload.participantsUpdated s'.students.length)] :=
  student_join_no_instructor [] "B" "r2" "bob" 4 (by decide) (by decide)
    (by decide)

/-- C10: an instructor join-broadcast on the same connection as the
currently recorded active instructor is admitted even under a different
identity: the conflict test compares only connection references, and the
instructor identity of the session is replaced by that of the requester. -/
theorem instructor_takeover_by_socket (st : ServerState)
    (sid roomId userId : String) (now : Nat) (s : Session) (ins : InstructorRec)
    (hv : validParams roomId userId "instructor" = true)
    (hs : mapGet st.sessions roomId = some s)
    (hins : s.instructor = some ins)
    (hsock : ins.socketId = sid)
    (_hid : ins.id ≠ userId) :
    ∃ s', mapGet (joinBroadcast st sid roomId userId "instructor" now).1.sessions
        roomId = some s' ∧
      s'.instructor = some { id := userId, socketId := sid, active := true } ∧
      ∀ msg, (Recipient.socket sid, Payload.error msg) ∉
        (joinBroadcast st sid roomId userId "instructor" now).2 := by
  have hg : (getOrCreate st.sessions roomId now).1 = s := by
    rw [getOrCreate_fst, hs]
    rfl
  have hc : instructorConflict (getOrCreate st.sessions roomId now).1 sid
      = false := by
    rw [hg]
    simp [instructorConflict, hins, hsock]
  rw [joinBroadcast_instructor st sid roomId userId now hv hc]
  refine ⟨_, mapGet_mapSet_self _ _ _, rfl, ?_⟩
  intro msg
  simp

/-- Witness for C10: on connection `A` (the connection of the active instructor), identity
`amber` takes over room `r1` from `alice`. -/
theorem instructor_takeover_by_socket_witness :
    ∃ s', mapGet (joinBroadcast exState "A" "r1" "amber" "instructor"
        13).1.sessions "r1" = some s' ∧
      s'.instructor = some { id := "amber", socketId := "A", active := true } ∧
      ∀ msg, (Recipient.socket "A", Payload.error msg) ∉
        (joinBroadcast exState "A" "r1" "amber" "instructor" 13).2 :=
  instructor_takeover_by_socket exState "A" "r1" "amber" 13 exSession
    { id := "alice", socketId := "A", active := true }
    (by decide) (by decide) (by decide) (by decide) (by decide)

end LearnX
